import Mathlib

/-!
Shallow embedding of the auteurplayground OSC controller:
`src/controller/emotion_controller.py` (preset catalog, crossfade engine,
desired-state poller) and `src/controller/ableton_state_monitor.py`
(channel state store and notification handlers).

Modelling conventions:
* Python floats are modelled as exact rationals; the constants `0.84`,
  `0.92` and the fade formulas are taken verbatim from the source.
* Outbound OSC volume messages are modelled as a list of
  `(channel, value)` writes in emission order; sleeps, logging and the
  UDP transport are not modelled.
* A Python call that raises an uncaught exception is modelled as `none`
  in an `Option` result.
-/

namespace Auteur

/-- Table `STATES` of `emotion_controller.py` (lines 10-16): preset id to
preset name; `none` models a missing dictionary key. -/
def STATES : ℤ → Option String := fun s =>
  if s = 1 then some "Daytime"
  else if s = 2 then some "Nocturnal"
  else if s = 3 then some "Dodgers"
  else if s = 4 then some "Busy"
  else if s = 5 then some "Empty"
  else none

/-- Table `STATE_CHANNELS` of `emotion_controller.py` (lines 19-25): preset
id to the pair (up channels, down channels), with Python `range(a, b)`
rendered as `List.range` / `List.range'`. -/
def STATE_CHANNELS : ℤ → Option (List ℕ × List ℕ) := fun s =>
  if s = 1 then some (List.range 4, List.range' 4 8)
  else if s = 2 then some (List.range' 5 4, List.range 5 ++ List.range' 9 3)
  else if s = 3 then some ([9], List.range 9 ++ List.range' 10 2)
  else if s = 4 then some ([10], List.range 10 ++ [11])
  else if s = 5 then some ([11], List.range 11)
  else none

/-- Embedding of `EmotionController.set_volume` (lines 37-54).  Returns the
list of volume writes the call emits, or `none` when the call raises: with
`duration > 0` the line `step_time = duration / steps` raises
`ZeroDivisionError` when `steps = 0`, before any write happens.  With
`duration <= 0` the method sends a single immediate write of `value`.
Each fade tick writes `progress ** 2 * value` with `progress = step / steps`. -/
def set_volume (channel : ℕ) (value : ℚ) (duration : ℚ := 0) (steps : ℕ := 1) :
    Option (List (ℕ × ℚ)) :=
  if duration ≤ 0 then some [(channel, value)]
  else if steps = 0 then none
  else some ((List.range (steps + 1)).map
    (fun step => (channel, ((step : ℚ) / steps) ^ 2 * value)))

/-- Fade-out value computed at one crossfade step (line 66):
`math.pow(0.92 - progress, 2) if progress < 0.92 else 0` with
`progress = step / steps`. -/
def fade_out_value (steps step : ℕ) : ℚ :=
  if ((step : ℚ) / steps) < 0.92 then (0.92 - (step : ℚ) / steps) ^ 2 else 0

/-- Fade-in value computed at one crossfade step (line 69):
`math.pow(progress * 0.92, 2)` with `progress = step / steps`. -/
def fade_in_value (steps step : ℕ) : ℚ :=
  (((step : ℚ) / steps) * 0.92) ^ 2

/-- Writes emitted by one iteration of the crossfade loop (lines 61-77):
every fade-out channel is written first, then every fade-in channel. -/
def crossfade_step (fade_in_channels fade_out_channels : List ℕ)
    (steps step : ℕ) : List (ℕ × ℚ) :=
  fade_out_channels.map (fun channel => (channel, fade_out_value steps step)) ++
  fade_in_channels.map (fun channel => (channel, fade_in_value steps step))

/-- Embedding of `EmotionController.crossfade` (lines 56-80): `steps + 1`
iterations over `range(steps + 1)`.  The `duration` argument only feeds the
per-step `time.sleep` and does not affect the emitted writes. -/
def crossfade (fade_in_channels fade_out_channels : List ℕ)
    (duration : ℚ := 3) (steps : ℕ := 30) : List (ℕ × ℚ) :=
  (List.range (steps + 1)).flatMap
    (crossfade_step fade_in_channels fade_out_channels steps)

/-- Embedding of `EmotionController.transition_to_state` (lines 82-123).
The state component is `self.current_state` (an `Option` preset id) and the
list component collects every outbound volume write, in order.  The final
direct sets go through `set_volume(channel, v)` with default `duration = 0`,
i.e. a single immediate write each, inlined here as `map`s.  The two inner
`none` branches are unreachable: `STATES` and `STATE_CHANNELS` have the same
key set, and `current_state` only ever holds a valid preset id. -/
def transition_to_state (current_state : Option ℤ) (new_state : ℤ) :
    Option ℤ × List (ℕ × ℚ) :=
  match STATES new_state with
  | none => (current_state, [])
  | some _ =>
    if current_state = some new_state then (current_state, [])
    else
      match STATE_CHANNELS new_state with
      | none => (current_state, [])
      | some (channels_up, channels_down) =>
        match current_state with
        | some cs =>
          match STATE_CHANNELS cs with
          | none => (current_state, [])
          | some (current_up, current_down) =>
            let fade_in := channels_up.filter (fun ch => decide (ch ∈ current_down))
            let fade_out := channels_down.filter (fun ch => decide (ch ∈ current_up))
            (some new_state,
              crossfade fade_in fade_out 3 30 ++
              channels_up.map (fun channel => (channel, (0.84 : ℚ))) ++
              channels_down.map (fun channel => (channel, (0 : ℚ))))
        | none =>
          (some new_state,
            channels_up.map (fun channel => (channel, (0.84 : ℚ))) ++
            channels_down.map (fun channel => (channel, (0 : ℚ))))

/-- Last volume written to a channel by a list of writes, if any; models
the net effect of a sequence of outbound volume messages on one channel. -/
def last_write (writes : List (ℕ × ℚ)) (channel : ℕ) : Option ℚ :=
  writes.foldl (fun acc p => if p.1 = channel then some p.2 else acc) none

/-- JSON-ish values a parsed poll response can hold in its fields. -/
inductive JVal where
  | jnull
  | jbool (b : Bool)
  | jint (n : ℤ)
  | jstr (s : String)
  deriving DecidableEq

/-- Result of Python's `int(x)` builtin: a value, a `ValueError` (caught by
`poll_api`), or a `TypeError` (uncaught by `poll_api`). -/
inductive PyIntResult where
  | ok (n : ℤ)
  | valueError
  | typeError
  deriving DecidableEq

/-- Value of a decimal digit character, if it is one. -/
def digit? (c : Char) : Option ℕ :=
  if '0' ≤ c ∧ c ≤ '9' then some (c.toNat - '0'.toNat) else none

/-- Value of a nonempty all-digit character list, read base 10. -/
def digitsVal (cs : List Char) : Option ℕ :=
  if cs = [] then none
  else cs.foldl (fun acc c =>
    match acc, digit? c with
    | some a, some d => some (a * 10 + d)
    | _, _ => none) (some 0)

/-- Integer-literal reading of a string, as Python's `int(str)` does for a
plain optionally-signed digit string (Python additionally strips
whitespace and allows underscores; irrelevant to the claims here). -/
def str_to_int (s : String) : Option ℤ :=
  match s.toList with
  | '-' :: ds => (digitsVal ds).map (fun n => -(n : ℤ))
  | ds => (digitsVal ds).map (fun n => (n : ℤ))

/-- Python's `int(x)` applied to a JSON field value (line 138 of
`emotion_controller.py`): ints pass through, bools coerce to 0/1, numeric
strings parse (`ValueError` otherwise), and `None` raises `TypeError`. -/
def python_int : JVal → PyIntResult
  | .jint n => .ok n
  | .jbool b => .ok (if b then 1 else 0)
  | .jstr s =>
    match str_to_int s with
    | some n => .ok n
    | none => .valueError
  | .jnull => .typeError

/-- Embedding of `EmotionController.poll_api` (lines 125-153) from the point
where a 200 response with valid JSON `json_data` is in hand.  Result `none`
models an exception escaping `poll_api` (the `TypeError` from `int(...)` is
not caught by the `except ValueError` handler); otherwise the result is the
`(current_state, writes)` outcome, `(current_state, [])` when the response
is discarded. -/
def poll_api (json_data : List (String × JVal)) (current_state : Option ℤ) :
    Option (Option ℤ × List (ℕ × ℚ)) :=
  match json_data.lookup "state" with
  | none => some (current_state, [])
  | some v =>
    match python_int v with
    | .ok state =>
      if (STATES state).isSome then some (transition_to_state current_state state)
      else some (current_state, [])
    | .valueError => some (current_state, [])
    | .typeError => none

/-- Per-channel record of `ableton_state_monitor.py` (lines 20-24). -/
structure Channel where
  volume : ℚ
  mute : Bool
  playing_clip : Option ℤ
  deriving DecidableEq

/-- Initial per-channel record (lines 20-24). -/
def initChannel : Channel := { volume := 0, mute := false, playing_clip := none }

/-- State owned by `AbletonStateMonitor`: `self.channels` (a dict keyed
0..8, modelled positionally) and `self.current_scene`. -/
structure Monitor where
  channels : List Channel
  current_scene : ℤ
  deriving DecidableEq

/-- Monitor state after `AbletonStateMonitor.__init__` (lines 17-27). -/
def initMonitor : Monitor :=
  { channels := List.replicate 9 initChannel, current_scene := -1 }

/-- Embedding of `_on_track_volume` (lines 107-120): guarded by
`0 <= track_index < 9`; stores the inbound volume unmodified. -/
def on_track_volume (m : Monitor) (track_index : ℤ) (volume : ℚ) : Monitor :=
  if 0 ≤ track_index ∧ track_index < 9 then
    let i := track_index.toNat
    let ch := m.channels.getD i initChannel
    { m with channels := m.channels.set i { ch with volume := volume } }
  else m

/-- Embedding of `_on_track_mute` (lines 122-130). -/
def on_track_mute (m : Monitor) (track_index : ℤ) (mute_state : Bool) : Monitor :=
  if 0 ≤ track_index ∧ track_index < 9 then
    let i := track_index.toNat
    let ch := m.channels.getD i initChannel
    { m with channels := m.channels.set i { ch with mute := mute_state } }
  else m

/-- Embedding of `_on_clip_playing_status` (lines 132-144): a playing
notification records the clip; a stop notification clears the recorded clip
only when the stopped clip equals the recorded one. -/
def on_clip_playing_status (m : Monitor) (track_index clip_index : ℤ)
    (playing : Bool) : Monitor :=
  if 0 ≤ track_index ∧ track_index < 9 then
    let i := track_index.toNat
    let ch := m.channels.getD i initChannel
    if playing then
      { m with channels := m.channels.set i { ch with playing_clip := some clip_index } }
    else if ch.playing_clip = some clip_index then
      { m with channels := m.channels.set i { ch with playing_clip := none } }
    else m
  else m

/-- Embedding of `_on_scene_triggered` (lines 146-151). -/
def on_scene_triggered (m : Monitor) (scene_index : ℤ) : Monitor :=
  { m with current_scene := scene_index }

/-- Embedding of `get_channel_state` (lines 159-165): converts the 1-based
`channel_index` to a 0-based index and returns `None` out of range. -/
def get_channel_state (m : Monitor) (channel_index : ℤ) : Option Channel :=
  let index := channel_index - 1
  if 0 ≤ index ∧ index < 9 then some (m.channels.getD index.toNat initChannel)
  else none

/-- Volume invariant of the channel state store: every stored channel
volume lies in the unit interval. -/
def volumes_ok (m : Monitor) : Prop :=
  ∀ ch ∈ m.channels, 0 ≤ ch.volume ∧ ch.volume ≤ 1

instance (m : Monitor) : Decidable (volumes_ok m) := by
  unfold volumes_ok; infer_instance

/-! Helper lemmas (shared; not named by any claim). -/

/-- A preset id with channel data also has a name in `STATES`: the two
tables of `emotion_controller.py` share the key set 1..5. -/
lemma STATES_of_channels {s : ℤ} {x : List ℕ × List ℕ}
    (h : STATE_CHANNELS s = some x) : ∃ t, STATES s = some t := by
  unfold STATE_CHANNELS at h
  unfold STATES
  split_ifs at h ⊢ <;> first | exact ⟨_, rfl⟩ | simp at h

/-- Case analysis on the preset table: the five rows, written out. -/
lemma STATE_CHANNELS_cases {s : ℤ} {up down : List ℕ}
    (h : STATE_CHANNELS s = some (up, down)) :
    (s = 1 ∧ up = List.range 4 ∧ down = List.range' 4 8) ∨
    (s = 2 ∧ up = List.range' 5 4 ∧ down = List.range 5 ++ List.range' 9 3) ∨
    (s = 3 ∧ up = [9] ∧ down = List.range 9 ++ List.range' 10 2) ∨
    (s = 4 ∧ up = [10] ∧ down = List.range 10 ++ [11]) ∨
    (s = 5 ∧ up = [11] ∧ down = List.range 11) := by
  unfold STATE_CHANNELS at h
  split_ifs at h with h1 h2 h3 h4 h5 <;>
    simp only [Option.some.injEq, Prod.mk.injEq] at h
  · exact Or.inl ⟨h1, h.1.symm, h.2.symm⟩
  · exact Or.inr (Or.inl ⟨h2, h.1.symm, h.2.symm⟩)
  · exact Or.inr (Or.inr (Or.inl ⟨h3, h.1.symm, h.2.symm⟩))
  · exact Or.inr (Or.inr (Or.inr (Or.inl ⟨h4, h.1.symm, h.2.symm⟩)))
  · exact Or.inr (Or.inr (Or.inr (Or.inr ⟨h5, h.1.symm, h.2.symm⟩)))

/-- In every row of the preset table, the up and down channel lists are
disjoint. -/
lemma up_down_disjoint {s : ℤ} {up down : List ℕ}
    (h : STATE_CHANNELS s = some (up, down)) :
    ∀ c, c ∈ up → c ∉ down := by
  rcases STATE_CHANNELS_cases h with ⟨_, hu, hd⟩ | ⟨_, hu, hd⟩ | ⟨_, hu, hd⟩ |
    ⟨_, hu, hd⟩ | ⟨_, hu, hd⟩ <;> subst hu <;> subst hd <;> intro c hc hcd <;>
    simp only [List.mem_range, List.mem_range'_1, List.mem_append,
      List.mem_singleton, List.mem_cons, List.not_mem_nil, or_false] at hc hcd <;>
    omega

/-- Folding the last-write accumulator from an arbitrary start value. -/
lemma last_write_foldl (ys : List (ℕ × ℚ)) (c : ℕ) (a : Option ℚ) :
    ys.foldl (fun acc p => if p.1 = c then some p.2 else acc) a =
      (last_write ys c).elim a some := by
  induction ys generalizing a with
  | nil => simp [last_write]
  | cons p ps ih =>
    simp only [last_write, List.foldl_cons] at *
    by_cases hp : p.1 = c
    · rw [ih (if p.1 = c then some p.2 else a), ih (if p.1 = c then some p.2 else none)]
      cases hlw : ps.foldl (fun acc q => if q.1 = c then some q.2 else acc) none <;>
        simp [last_write, hlw, hp]
    · rw [ih (if p.1 = c then some p.2 else a), ih (if p.1 = c then some p.2 else none)]
      cases hlw : ps.foldl (fun acc q => if q.1 = c then some q.2 else acc) none <;>
        simp [last_write, hlw, hp]

/-- Last write over an append: the right part wins when it writes `c`. -/
lemma last_write_append (xs ys : List (ℕ × ℚ)) (c : ℕ) :
    last_write (xs ++ ys) c = (last_write ys c).elim (last_write xs c) some := by
  unfold last_write
  rw [List.foldl_append, last_write_foldl]
  rfl

/-- Last write of a constant-value write list over the listed channels. -/
lemma last_write_map_const (l : List ℕ) (v : ℚ) (c : ℕ) :
    last_write (l.map (fun x => (x, v))) c = if c ∈ l then some v else none := by
  induction l with
  | nil => simp [last_write]
  | cons x xs ih =>
    have hcons : last_write ((x, v) :: List.map (fun y => (y, v)) xs) c
        = (last_write (List.map (fun y => (y, v)) xs) c).elim
            (if x = c then some v else none) some := by
      unfold last_write
      simp only [List.foldl_cons]
      rw [last_write_foldl]
      rfl
    simp only [List.map_cons]
    rw [hcons, ih]
    by_cases h1 : c ∈ xs <;> by_cases h2 : x = c <;>
      simp [h1, h2, List.mem_cons, eq_comm] <;>
      simp [Ne.symm h2]

/-! Claim theorems. -/

/-- C4: a transition request for an unknown preset id, or for the currently
recorded preset, performs no volume writes, starts no ramp, and leaves the
recorded current preset unchanged. -/
theorem C4_no_op_requests (current_state : Option ℤ) (new_state : ℤ) :
    (STATES new_state = none →
      transition_to_state current_state new_state = (current_state, [])) ∧
    (current_state = some new_state →
      transition_to_state current_state new_state = (current_state, [])) := by
  constructor
  · intro h
    unfold transition_to_state
    rw [h]
  · intro h
    unfold transition_to_state
    cases hS : STATES new_state
    · rfl
    · simp [h]

/-- Witness for C4 at the unknown id 99 and at a request equal to the
current preset 3. -/
theorem C4_no_op_requests_witness :
    transition_to_state none 99 = (none, []) ∧
    transition_to_state (some 3) 3 = (some 3, []) :=
  ⟨(C4_no_op_requests none 99).1 rfl, (C4_no_op_requests (some 3) 3).2 rfl⟩

/-- C10: in every preset of the catalog, the up and down channel sets are
disjoint and their union is exactly the full channel set 0..11. -/
theorem C10_preset_partition (s : ℤ) (up down : List ℕ)
    (h : STATE_CHANNELS s = some (up, down)) :
    up.toFinset ∩ down.toFinset = ∅ ∧
    up.toFinset ∪ down.toFinset = Finset.range 12 := by
  rcases STATE_CHANNELS_cases h with ⟨_, hu, hd⟩ | ⟨_, hu, hd⟩ | ⟨_, hu, hd⟩ |
    ⟨_, hu, hd⟩ | ⟨_, hu, hd⟩ <;>
    subst hu <;> subst hd <;> exact ⟨by decide, by decide⟩

/-- Witness for C10 at preset 1. -/
theorem C10_preset_partition_witness :
    (List.range 4).toFinset ∩ (List.range' 4 8).toFinset = ∅ ∧
    (List.range 4).toFinset ∪ (List.range' 4 8).toFinset = Finset.range 12 :=
  C10_preset_partition 1 (List.range 4) (List.range' 4 8) rfl

/-- Counterexample to C3 as stated: `set_volume` with `steps = 0` and
`duration = 1 > 0` does not perform a single immediate write — it raises
`ZeroDivisionError` at `step_time = duration / steps` (modelled as `none`)
and performs no write at all. -/
theorem C3_counterexample : set_volume 0 1 1 0 = none := by
  norm_num [set_volume]

/-- C3 amended: `set_volume` with `duration ≤ 0` performs an immediate,
single write of the final value (for any `steps`); with `steps = 0` and
`duration > 0` the call fails with `ZeroDivisionError` and performs no
write. -/
theorem C3_set_volume_edge_cases (channel : ℕ) (value duration : ℚ) (steps : ℕ) :
    (duration ≤ 0 → set_volume channel value duration steps = some [(channel, value)]) ∧
    (0 < duration → steps = 0 → set_volume channel value duration steps = none) := by
  constructor
  · intro h
    unfold set_volume
    rw [if_pos h]
  · intro h hs
    unfold set_volume
    rw [if_neg (not_le.mpr h), if_pos hs]

/-- Witness for the amended C3 at `duration = 0, steps = 5` and at
`duration = 1, steps = 0`. -/
theorem C3_set_volume_edge_cases_witness :
    set_volume 2 (1/2) 0 5 = some [(2, 1/2)] ∧ set_volume 2 (1/2) 1 0 = none :=
  ⟨(C3_set_volume_edge_cases 2 (1/2) 0 5).1 (by norm_num),
   (C3_set_volume_edge_cases 2 (1/2) 1 0).2 (by norm_num) rfl⟩

/-- C1: after a completed transition to a catalogued preset — from any
prior engine state, the very first transition included — every up channel
of the target has last written volume 0.84, every down channel has 0, and
the recorded current preset is the target. -/
theorem C1_transition_final_volumes (new_state : ℤ) (up down : List ℕ)
    (hnew : STATE_CHANNELS new_state = some (up, down))
    (current : Option ℤ)
    (hcur : current = none ∨ ∃ q x, current = some q ∧ STATE_CHANNELS q = some x)
    (hne : current ≠ some new_state) :
    (transition_to_state current new_state).1 = some new_state ∧
    ∀ c, (c ∈ up → last_write (transition_to_state current new_state).2 c = some 0.84) ∧
         (c ∈ down → last_write (transition_to_state current new_state).2 c = some 0) := by
  obtain ⟨t, ht⟩ := STATES_of_channels hnew
  have hdisj := up_down_disjoint hnew
  rcases hcur with hcur | ⟨q, ⟨cup, cdown⟩, hq, hqc⟩
  · subst hcur
    have hwrites : transition_to_state none new_state =
        (some new_state,
          up.map (fun channel => (channel, (0.84 : ℚ))) ++
          down.map (fun channel => (channel, (0 : ℚ)))) := by
      simp [transition_to_state, ht, hnew]
    refine ⟨by rw [hwrites], fun c => ⟨fun hcup => ?_, fun hcd => ?_⟩⟩
    · rw [hwrites, last_write_append, last_write_map_const, last_write_map_const]
      simp [hcup, hdisj c hcup]
    · rw [hwrites, last_write_append, last_write_map_const, last_write_map_const]
      simp [hcd]
  · subst hq
    have hne2 : ¬ ((some q : Option ℤ) = some new_state) := hne
    have hwrites : transition_to_state (some q) new_state =
        (some new_state,
          crossfade (up.filter (fun ch => decide (ch ∈ cdown)))
            (down.filter (fun ch => decide (ch ∈ cup))) 3 30 ++
          up.map (fun channel => (channel, (0.84 : ℚ))) ++
          down.map (fun channel => (channel, (0 : ℚ)))) := by
      simp [transition_to_state, ht, hnew, hqc, hne2]
    refine ⟨by rw [hwrites], fun c => ⟨fun hcup => ?_, fun hcd => ?_⟩⟩
    · rw [hwrites, last_write_append, last_write_append, last_write_map_const,
        last_write_map_const]
      simp [hcup, hdisj c hcup]
    · rw [hwrites, last_write_append, last_write_append, last_write_map_const,
        last_write_map_const]
      simp [hcd]

/-- Witness for C1: transition from preset 1 (Daytime) to preset 2
(Nocturnal). -/
theorem C1_transition_final_volumes_witness :
    (transition_to_state (some 1) 2).1 = some 2 ∧
    ∀ c, (c ∈ [5, 6, 7, 8] →
            last_write (transition_to_state (some 1) 2).2 c = some 0.84) ∧
         (c ∈ [0, 1, 2, 3, 4, 9, 10, 11] →
            last_write (transition_to_state (some 1) 2).2 c = some 0) :=
  C1_transition_final_volumes 2 [5, 6, 7, 8] [0, 1, 2, 3, 4, 9, 10, 11] rfl (some 1)
    (Or.inr ⟨1, ([0, 1, 2, 3], [4, 5, 6, 7, 8, 9, 10, 11]), rfl, rfl⟩) (by decide)

/-- C2: a recorded-to-recorded transition ramps exactly over
`fadeIn = to.up ∩ from.down` and `fadeOut = to.down ∩ from.up`, in `30 + 1`
discrete steps; at step `s` every fadeOut channel is written
`(0.92 - s/30)^2` while `s/30 < 0.92` and `0` otherwise, and every fadeIn
channel is written `(0.92 * s/30)^2`; the direct final sets follow. -/
theorem C2_crossfade_ramp (from_state to_state : ℤ) (fup fdown tup tdown : List ℕ)
    (hf : STATE_CHANNELS from_state = some (fup, fdown))
    (ht : STATE_CHANNELS to_state = some (tup, tdown))
    (hne : from_state ≠ to_state) :
    (∀ c, c ∈ tup.filter (fun ch => decide (ch ∈ fdown)) ↔ c ∈ tup ∧ c ∈ fdown) ∧
    (∀ c, c ∈ tdown.filter (fun ch => decide (ch ∈ fup)) ↔ c ∈ tdown ∧ c ∈ fup) ∧
    (transition_to_state (some from_state) to_state).2 =
      (List.range (30 + 1)).flatMap (fun step =>
        (tdown.filter (fun ch => decide (ch ∈ fup))).map (fun channel =>
          (channel, if ((step : ℚ) / 30) < 0.92
            then (0.92 - (step : ℚ) / 30) ^ 2 else 0)) ++
        (tup.filter (fun ch => decide (ch ∈ fdown))).map (fun channel =>
          (channel, ((step : ℚ) / 30 * 0.92) ^ 2))) ++
      tup.map (fun channel => (channel, (0.84 : ℚ))) ++
      tdown.map (fun channel => (channel, (0 : ℚ))) := by
  obtain ⟨t, hS⟩ := STATES_of_channels ht
  have hne2 : ¬ ((some from_state : Option ℤ) = some to_state) := by simpa using hne
  have hstep : ∀ fin fout : List ℕ, crossfade_step fin fout 30 = fun step : ℕ =>
      fout.map (fun channel =>
        (channel, if ((step : ℚ) / 30) < 0.92
          then (0.92 - (step : ℚ) / 30) ^ 2 else 0)) ++
      fin.map (fun channel => (channel, ((step : ℚ) / 30 * 0.92) ^ 2)) := by
    intro fin fout
    funext step
    simp [crossfade_step, fade_out_value, fade_in_value, Nat.cast_ofNat]
  refine ⟨fun c => by simp [List.mem_filter], fun c => by simp [List.mem_filter], ?_⟩
  simp [transition_to_state, hS, ht, hf, hne2, crossfade, hstep]

/-- Witness for C2: the ramp from preset 1 (Daytime) to preset 2
(Nocturnal). -/
theorem C2_crossfade_ramp_witness :
    (∀ c, c ∈ [5, 6, 7, 8].filter
        (fun ch => decide (ch ∈ [4, 5, 6, 7, 8, 9, 10, 11])) ↔
      c ∈ [5, 6, 7, 8] ∧ c ∈ [4, 5, 6, 7, 8, 9, 10, 11]) ∧
    (∀ c, c ∈ [0, 1, 2, 3, 4, 9, 10, 11].filter
        (fun ch => decide (ch ∈ [0, 1, 2, 3])) ↔
      c ∈ [0, 1, 2, 3, 4, 9, 10, 11] ∧ c ∈ [0, 1, 2, 3]) ∧
    (transition_to_state (some 1) 2).2 =
      (List.range (30 + 1)).flatMap (fun step =>
        ([0, 1, 2, 3, 4, 9, 10, 11].filter
            (fun ch => decide (ch ∈ [0, 1, 2, 3]))).map (fun channel =>
          (channel, if ((step : ℚ) / 30) < 0.92
            then (0.92 - (step : ℚ) / 30) ^ 2 else 0)) ++
        ([5, 6, 7, 8].filter
            (fun ch => decide (ch ∈ [4, 5, 6, 7, 8, 9, 10, 11]))).map (fun channel =>
          (channel, ((step : ℚ) / 30 * 0.92) ^ 2))) ++
      [5, 6, 7, 8].map (fun channel => (channel, (0.84 : ℚ))) ++
      [0, 1, 2, 3, 4, 9, 10, 11].map (fun channel => (channel, (0 : ℚ))) :=
  C2_crossfade_ramp 1 2 [0, 1, 2, 3] [4, 5, 6, 7, 8, 9, 10, 11] [5, 6, 7, 8]
    [0, 1, 2, 3, 4, 9, 10, 11] rfl rfl (by decide)

/-- C9: during a ramp, the value written at step `s` to a fadeIn channel is
`fade_in_value` and the sequence is non-decreasing step-over-step; the value
written to a fadeOut channel is `fade_out_value` and is non-increasing. -/
theorem C9_crossfade_monotone (fade_in_channels fade_out_channels : List ℕ)
    (steps step : ℕ) (h : step + 1 ≤ steps) (c : ℕ) :
    (c ∈ fade_in_channels →
      (c, fade_in_value steps step) ∈
        crossfade_step fade_in_channels fade_out_channels steps step ∧
      fade_in_value steps step ≤ fade_in_value steps (step + 1)) ∧
    (c ∈ fade_out_channels →
      (c, fade_out_value steps step) ∈
        crossfade_step fade_in_channels fade_out_channels steps step ∧
      fade_out_value steps (step + 1) ≤ fade_out_value steps step) := by
  have hp : ((step : ℚ) / steps) ≤ (((step + 1 : ℕ) : ℚ) / steps) := by
    gcongr
    exact_mod_cast Nat.le_succ step
  have h0 : (0 : ℚ) ≤ (step : ℚ) / steps := by positivity
  constructor
  · intro hc
    refine ⟨List.mem_append_right _ (List.mem_map.mpr ⟨c, hc, rfl⟩), ?_⟩
    unfold fade_in_value
    have h092 : (0 : ℚ) ≤ 0.92 := by norm_num
    exact pow_le_pow_left₀ (mul_nonneg h0 h092) (mul_le_mul_of_nonneg_right hp h092) 2
  · intro hc
    refine ⟨List.mem_append_left _ (List.mem_map.mpr ⟨c, hc, rfl⟩), ?_⟩
    unfold fade_out_value
    by_cases h1 : (((step + 1 : ℕ) : ℚ) / steps) < 0.92
    · have h2 : ((step : ℚ) / steps) < 0.92 := lt_of_le_of_lt hp h1
      rw [if_pos h1, if_pos h2]
      exact pow_le_pow_left₀ (by linarith) (by linarith) 2
    · rw [if_neg h1]
      by_cases h2 : ((step : ℚ) / steps) < 0.92
      · rw [if_pos h2]
        positivity
      · rw [if_neg h2]

/-- Witness for C9 at steps = 30, step = 0, channel 5 listed on both sides. -/
theorem C9_crossfade_monotone_witness :
    ((5 : ℕ) ∈ [5] →
      ((5 : ℕ), fade_in_value 30 0) ∈ crossfade_step [5] [5] 30 0 ∧
      fade_in_value 30 0 ≤ fade_in_value 30 (0 + 1)) ∧
    ((5 : ℕ) ∈ [5] →
      ((5 : ℕ), fade_out_value 30 0) ∈ crossfade_step [5] [5] 30 0 ∧
      fade_out_value 30 (0 + 1) ≤ fade_out_value 30 0) :=
  C9_crossfade_monotone [5] [5] 30 0 (by norm_num) 5

/-! Helper lemmas for the channel state store. -/

/-- Setting one position of a list preserves a pointwise property. -/
lemma forall_mem_set {α : Type} {P : α → Prop} (l : List α) (i : ℕ) (a : α)
    (h : ∀ x ∈ l, P x) (ha : P a) : ∀ x ∈ l.set i a, P x := by
  induction l generalizing i with
  | nil => simp
  | cons y ys ih =>
    cases i with
    | zero =>
      intro x hx
      rw [List.set_cons_zero] at hx
      rcases List.mem_cons.mp hx with rfl | hx
      · exact ha
      · exact h x (List.mem_cons_of_mem _ hx)
    | succ n =>
      intro x hx
      rw [List.set_cons_succ] at hx
      rcases List.mem_cons.mp hx with rfl | hx
      · exact h x (List.mem_cons_self _ _)
      · exact ih n (fun z hz => h z (List.mem_cons_of_mem _ hz)) x hx

/-- Reading at the just-written position returns the written element. -/
lemma getD_set_self (l : List Channel) (i : ℕ) (a : Channel)
    (h : i < l.length) : (l.set i a).getD i initChannel = a := by
  simp [List.getD_eq_getElem?_getD, List.getElem?_set_self, h]

/-- In a store satisfying the volume invariant, any defaulted read also
satisfies it (the default channel has volume 0). -/
lemma getD_volume_ok (m : Monitor) (hm : volumes_ok m) (i : ℕ) :
    0 ≤ (m.channels.getD i initChannel).volume ∧
    (m.channels.getD i initChannel).volume ≤ 1 := by
  by_cases h : i < m.channels.length
  · rw [List.getD_eq_getElem m.channels initChannel h]
    exact hm _ (List.getElem_mem h)
  · rw [List.getD_eq_default m.channels initChannel (by omega)]
    norm_num [initChannel]

/-- Counterexample to C5 as stated: a track-volume notification carrying the
out-of-range volume 2 is stored unclamped, so the store leaves `[0,1]`. -/
theorem C5_counterexample : ¬ volumes_ok (on_track_volume initMonitor 0 2) := by
  decide

/-- C5 amended: every channel volume is in `[0,1]` after initialization,
and every store mutation preserves the invariant provided any inbound
track-volume payload is itself in `[0,1]`; an out-of-range inbound volume
is stored unmodified and can break the invariant. -/
theorem C5_volume_invariant :
    volumes_ok initMonitor ∧
    (∀ m t v, volumes_ok m → 0 ≤ v → v ≤ 1 →
      volumes_ok (on_track_volume m t v)) ∧
    (∀ m t b, volumes_ok m → volumes_ok (on_track_mute m t b)) ∧
    (∀ m t c p, volumes_ok m → volumes_ok (on_clip_playing_status m t c p)) ∧
    (∀ m s, volumes_ok m → volumes_ok (on_scene_triggered m s)) := by
  refine ⟨?_, ?_, ?_, ?_, ?_⟩
  · intro ch hch
    simp only [initMonitor, List.mem_replicate] at hch
    rw [hch.2]
    norm_num [initChannel]
  · intro m t v hm hv0 hv1
    unfold on_track_volume
    split_ifs with hguard
    · exact forall_mem_set _ _ _ hm ⟨hv0, hv1⟩
    · exact hm
  · intro m t b hm
    unfold on_track_mute
    split_ifs with hguard
    · exact forall_mem_set _ _ _ hm (getD_volume_ok m hm _)
    · exact hm
  · intro m t c p hm
    simp only [on_clip_playing_status]
    split_ifs with hguard hplay hclip
    · exact forall_mem_set _ _ _ hm (getD_volume_ok m hm _)
    · exact forall_mem_set _ _ _ hm (getD_volume_ok m hm _)
    · exact hm
    · exact hm
  · intro m s hm
    exact hm

/-- Witness exercising the amended C5 on a concrete in-range update. -/
theorem C5_volume_invariant_witness :
    volumes_ok (on_track_volume initMonitor 0 (1/2)) :=
  C5_volume_invariant.2.1 initMonitor 0 (1/2) C5_volume_invariant.1
    (by norm_num) (by norm_num)

/-- Counterexample to C6 as stated: index 0 lies inside `[0, 9)` yet
`get_channel_state` signals NotFound there, and index 9 lies outside
`[0, 9)` yet `get_channel_state` returns a channel state: the getter is
1-based, not 0-based. -/
theorem C6_counterexample :
    get_channel_state initMonitor 0 = none ∧
    get_channel_state initMonitor 9 = some initChannel := by
  constructor <;> rfl

/-- C6 amended: notifications with a channel index outside `[0, 9)` leave
the store unchanged; `get_channel_state` uses 1-based indices — it returns
channel `i - 1` for `i ∈ [1, 9]` and NotFound for every other index. -/
theorem C6_store_bounds (m : Monitor) (i clip_index : ℤ) (v : ℚ)
    (b playing : Bool) :
    (¬ (0 ≤ i ∧ i < 9) →
      on_track_volume m i v = m ∧ on_track_mute m i b = m ∧
      on_clip_playing_status m i clip_index playing = m) ∧
    (1 ≤ i ∧ i ≤ 9 →
      get_channel_state m i = some (m.channels.getD (i - 1).toNat initChannel)) ∧
    (¬ (1 ≤ i ∧ i ≤ 9) → get_channel_state m i = none) := by
  refine ⟨fun h => ⟨?_, ?_, ?_⟩, fun h => ?_, fun h => ?_⟩
  · unfold on_track_volume
    rw [if_neg h]
  · unfold on_track_mute
    rw [if_neg h]
  · unfold on_clip_playing_status
    rw [if_neg h]
  · have hidx : 0 ≤ i - 1 ∧ i - 1 < 9 := by omega
    simp [get_channel_state, hidx]
  · simp only [get_channel_state]
    rw [if_neg (by omega : ¬ (0 ≤ i - 1 ∧ i - 1 < 9))]

/-- Witness for the amended C6 at the out-of-range index -2 and the
in-range 1-based indices 1 and 10. -/
theorem C6_store_bounds_witness :
    (on_track_volume initMonitor (-2) (1/2) = initMonitor ∧
      on_track_mute initMonitor (-2) true = initMonitor ∧
      on_clip_playing_status initMonitor (-2) 0 true = initMonitor) ∧
    get_channel_state initMonitor 1 =
      some (initMonitor.channels.getD ((1 : ℤ) - 1).toNat initChannel) ∧
    get_channel_state initMonitor 10 = none :=
  ⟨(C6_store_bounds initMonitor (-2) 0 (1/2) true true).1 (by decide),
   (C6_store_bounds initMonitor 1 0 (1/2) true true).2.1 (by decide),
   (C6_store_bounds initMonitor 10 0 (1/2) true true).2.2 (by decide)⟩

/-- C7: on a store channel, a stop notification for a clip other than the
recorded active clip changes nothing; a stop for the recorded clip clears
it; a playing notification records the clip as active. -/
theorem C7_clip_status (m : Monitor) (track_index clip_index : ℤ)
    (ht : 0 ≤ track_index ∧ track_index < 9)
    (hlen : m.channels.length = 9) :
    ((m.channels.getD track_index.toNat initChannel).playing_clip ≠ some clip_index →
      on_clip_playing_status m track_index clip_index false = m) ∧
    ((m.channels.getD track_index.toNat initChannel).playing_clip = some clip_index →
      ((on_clip_playing_status m track_index clip_index false).channels.getD
        track_index.toNat initChannel).playing_clip = none) ∧
    (((on_clip_playing_status m track_index clip_index true).channels.getD
        track_index.toNat initChannel).playing_clip = some clip_index) := by
  have hlt : track_index.toNat < m.channels.length := by omega
  refine ⟨fun hne => ?_, fun heq => ?_, ?_⟩
  · simp only [on_clip_playing_status, ht, and_self, if_true, Bool.false_eq_true,
      if_false]
    rw [if_neg hne]
  · simp only [on_clip_playing_status, ht, and_self, if_true, Bool.false_eq_true,
      if_false, heq, if_pos]
    rw [getD_set_self _ _ _ hlt]
  · simp only [on_clip_playing_status, ht, and_self, if_true]
    rw [getD_set_self _ _ _ hlt]

/-- Witness for C7: channel 0 of the freshly initialized store, clip 3. -/
theorem C7_clip_status_witness :
    ((initMonitor.channels.getD (0 : ℤ).toNat initChannel).playing_clip ≠ some 3 →
      on_clip_playing_status initMonitor 0 3 false = initMonitor) ∧
    ((initMonitor.channels.getD (0 : ℤ).toNat initChannel).playing_clip = some 3 →
      ((on_clip_playing_status initMonitor 0 3 false).channels.getD
        (0 : ℤ).toNat initChannel).playing_clip = none) ∧
    (((on_clip_playing_status initMonitor 0 3 true).channels.getD
        (0 : ℤ).toNat initChannel).playing_clip = some 3) :=
  C7_clip_status initMonitor 0 3 (by decide) rfl

/-- Counterexample to C8 as stated: the response value `"2"` is a string,
not an integer, yet `poll_api` coerces it with Python's `int()` and issues
the transition to preset 2 — a nonempty write list and a changed recorded
preset. -/
theorem C8_counterexample :
    poll_api [("state", JVal.jstr "2")] none = some (transition_to_state none 2) ∧
    (transition_to_state none 2).1 = some 2 ∧
    (transition_to_state none 2).2 ≠ [] := by
  refine ⟨rfl, rfl, ?_⟩
  decide

/-- C8 amended: a poll whose response lacks the `state` field, whose value
fails `int()` coercion with `ValueError`, or whose coerced value is not a
catalogued preset id, issues no transition and leaves the local state
unchanged (polling continues); but a non-integer value that `int()` can
coerce — a numeric string or a bool — is accepted and can trigger a
transition, and a value raising `TypeError` (e.g. `null`) escapes
`poll_api` uncaught. -/
theorem C8_poll_rejects (json_data : List (String × JVal)) (current : Option ℤ) :
    (json_data.lookup "state" = none → poll_api json_data current = some (current, [])) ∧
    (∀ v, json_data.lookup "state" = some v → python_int v = PyIntResult.valueError →
      poll_api json_data current = some (current, [])) ∧
    (∀ v n, json_data.lookup "state" = some v → python_int v = PyIntResult.ok n →
      STATES n = none → poll_api json_data current = some (current, [])) := by
  refine ⟨fun h => ?_, fun v hv hint => ?_, fun v n hv hint hstates => ?_⟩
  · simp [poll_api, h]
  · simp [poll_api, hv, hint]
  · simp [poll_api, hv, hint, hstates]

/-- Witness for the amended C8: missing field, unparsable string, and the
unknown preset id 99. -/
theorem C8_poll_rejects_witness :
    poll_api [] none = some (none, []) ∧
    poll_api [("state", JVal.jstr "abc")] none = some (none, []) ∧
    poll_api [("state", JVal.jint 99)] none = some (none, []) :=
  ⟨(C8_poll_rejects [] none).1 rfl,
   (C8_poll_rejects [("state", JVal.jstr "abc")] none).2.1 (JVal.jstr "abc") rfl rfl,
   (C8_poll_rejects [("state", JVal.jint 99)] none).2.2 (JVal.jint 99) 99 rfl rfl rfl⟩

end Auteur
